import Mathlib

/-!
Shallow embedding of the liblisp interpreter (src/src/eval.rs and
src/src/expression.rs): the S-expression AST, the run-time value model,
the recursive-descent parser, and the tree-walking evaluator with its
mutable Context.

Conventions of the embedding:
* Rust's reference-counted cons list (`CommonList<T>` in util.rs, `List` in
  eval.rs) is the Lean `List`: `cons` prepends, `head()` is `List.head?`,
  `tail()` is `List.tail` (both return Nil unchanged on Nil), `len()` is
  `List.length`, `reverse()` is `List.reverse` (same accumulator algorithm).
* `i32` is embedded as `Int`; no claim touches overflow, which the spec
  (section 7) leaves as an open host-arithmetic question.
* Rust `panic!` / slice-index-out-of-bounds / `unwrap()` on `None` /
  division by zero are modelled by an explicit `panicked` outcome,
  distinct from returned `Err` values.
* The evaluator and the parser take a fuel parameter so that every
  definition is a total computable function; exhausted fuel yields the
  distinct `timeout` outcome, which never occurs in any concrete
  computation below.
-/

namespace Liblisp

/-- AST produced by the parser (expression.rs `Expression`): integers,
atoms, `*name*` variable references and parenthesized lists. -/
inductive Expression where
  | Int (i : Int)
  | Atom (s : String)
  | Var (s : String)
  | ExpressionList (l : List Expression)

/-- Parse-time errors (expression.rs `ExpressionConversionError`). -/
inductive ExpressionConversionError where
  | InvalidToken
  | Unexpected (msg : String)

/-- Run-time values (eval.rs `Type`): `Int(i32)`, `Atom(Rc<String>)`,
`List(Rc<List>)`. Note this enum has no `Void` variant. -/
inductive Ty where
  | Int (i : Int)
  | Atom (s : String)
  | List (l : List Ty)

/-- Evaluation-time errors (eval.rs `EvalError`). -/
inductive EvalError where
  | Unexpected
  | TypeMismatch
  | BadArrity
  | NotImplementation
  | NotFoundFunctionName
  | DoHeadForNil
  | UndefinedVariableReference
  | EvaluatingNonAtomHeadList

/-- The mutable variable table (eval.rs `Context`), a name-to-value map.
The `HashMap` is embedded as an association list where `insert` prepends
(so lookups observe the newest binding, as `HashMap::insert` overwrites). -/
structure Context where
  vartable : List (String × Ty)

/-- `Context::new()`: the empty variable table. -/
def Context.new : Context := ⟨[]⟩

/-- `context.vartable.get(name)`. -/
def Context.get (ctx : Context) (name : String) : Option Ty :=
  ctx.vartable.lookup name

/-- `context.vartable.insert(name, val)`. -/
def Context.insert (ctx : Context) (name : String) (val : Ty) : Context :=
  ⟨(name, val) :: ctx.vartable⟩

/-- Outcome of a stateful evaluation step: an `Ok` value or an `Err`
together with the Context as mutated so far (the Rust `&mut Context`
keeps its mutations on either path), or the fuel / panic artifacts. -/
inductive Outcome (α : Type) where
  | ok (a : α) (ctx : Context)
  | error (e : EvalError) (ctx : Context)
  | timeout
  | panicked

/-- Result of a built-in function (eval.rs `fn(List) -> Result<Type, EvalError>`;
these never see the Context). -/
inductive TyRes where
  | ok (t : Ty)
  | error (e : EvalError)
  | panicked

/-- The four arithmetic operations (eval.rs `ArithType`). -/
inductive ArithType where
  | Add
  | Sub
  | Mul
  | Div

/-- eval.rs `arith_op`: exactly 2 arguments, both `Int`, else
`BadArrity`/`TypeMismatch`; the first argument is type-checked before the
second. Division by zero panics in the host (Rust), hence `panicked`. -/
def arith_op (l : List Ty) (tp : ArithType) : TyRes :=
  if l.length ≠ 2 then .error .BadArrity
  else
    match l.head?, l.tail.head? with
    | some a, some b =>
      match a with
      | .Int aint =>
        match b with
        | .Int bint =>
          match tp with
          | .Add => .ok (.Int (aint + bint))
          | .Sub => .ok (.Int (aint - bint))
          | .Mul => .ok (.Int (aint * bint))
          | .Div => if bint = 0 then .panicked else .ok (.Int (Int.tdiv aint bint))
        | _ => .error .TypeMismatch
      | _ => .error .TypeMismatch
    | _, _ => .panicked

/-- eval.rs `add`. -/
def add (l : List Ty) : TyRes := arith_op l ArithType.Add

/-- eval.rs `sub`. -/
def sub (l : List Ty) : TyRes := arith_op l ArithType.Sub

/-- eval.rs `mul`. -/
def mul (l : List Ty) : TyRes := arith_op l ArithType.Mul

/-- eval.rs `div`. -/
def div (l : List Ty) : TyRes := arith_op l ArithType.Div

/-- eval.rs `list`: wrap the (already evaluated) arguments as a list value. -/
def list (l : List Ty) : TyRes := .ok (.List l)

/-- eval.rs `head`: exactly 1 argument, a list value, else
`BadArrity`/`TypeMismatch`; its first element, or `DoHeadForNil` on Nil. -/
def head (l : List Ty) : TyRes :=
  if l.length ≠ 1 then .error .BadArrity
  else
    match l.head? with
    | some a =>
      match a with
      | .List b =>
        match b.head? with
        | some c => .ok c
        | none => .error .DoHeadForNil
      | _ => .error .TypeMismatch
    | none => .panicked

/-- eval.rs `tail`: exactly 1 argument, a list value, else
`BadArrity`/`TypeMismatch`; the list without its first element
(`List::tail` returns Nil unchanged on Nil). -/
def tail (l : List Ty) : TyRes :=
  if l.length ≠ 1 then .error .BadArrity
  else
    match l.head? with
    | some a =>
      match a with
      | .List b => .ok (.List b.tail)
      | _ => .error .TypeMismatch
    | none => .panicked

/-- eval.rs `gt`: exactly 2 arguments; `Int(1)` iff the first is strictly
greater, numerically for `Int`s and lexicographically for `Atom`s; a
mixed or non-comparable pair is `TypeMismatch`. -/
def gt (l : List Ty) : TyRes :=
  if l.length ≠ 2 then .error .BadArrity
  else
    match l.head?, l.tail.head? with
    | some a, some b =>
      match a with
      | .Int aint =>
        match b with
        | .Int bint => .ok (.Int (if bint < aint then 1 else 0))
        | _ => .error .TypeMismatch
      | .Atom aatom =>
        match b with
        | .Atom batom => .ok (.Int (if batom < aatom then 1 else 0))
        | _ => .error .TypeMismatch
      | _ => .error .TypeMismatch
    | _, _ => .panicked

/-- eval.rs `lt`: exactly 2 arguments; `Int(1)` iff the first is strictly
smaller, numerically for `Int`s and lexicographically for `Atom`s; a
mixed or non-comparable pair is `TypeMismatch`. -/
def lt (l : List Ty) : TyRes :=
  if l.length ≠ 2 then .error .BadArrity
  else
    match l.head?, l.tail.head? with
    | some a, some b =>
      match a with
      | .Int aint =>
        match b with
        | .Int bint => .ok (.Int (if aint < bint then 1 else 0))
        | _ => .error .TypeMismatch
      | .Atom aatom =>
        match b with
        | .Atom batom => .ok (.Int (if aatom < batom then 1 else 0))
        | _ => .error .TypeMismatch
      | _ => .error .TypeMismatch
    | _, _ => .panicked

/-- eval.rs `eq`: run `gt` then `lt` on the same pair (propagating their
errors); `Int(1)` iff both returned `Int(0)` — "neither strictly greater
nor strictly less" — else `Int(0)`. -/
def eq (l : List Ty) : TyRes :=
  match gt l with
  | .ok res1 =>
    match lt l with
    | .ok res2 =>
      match res1, res2 with
      | .Int i1, .Int i2 => if i1 = 0 ∧ i2 = 0 then .ok (.Int 1) else .ok (.Int 0)
      | _, _ => .ok (.Int 0)
    | .error e => .error e
    | .panicked => .panicked
  | .error e => .error e
  | .panicked => .panicked

end Liblisp

namespace Liblisp

/-- Shape of an evaluator handle passed to the special forms: one
recursive call of `eval_with_context` at the next smaller fuel. -/
abbrev Ev : Type := Expression → Context → Outcome Ty

/-- eval.rs `cond`: exactly 3 raw sub-expressions else `BadArrity`;
evaluate only the condition; `Int(0)` selects the third element,
any other `Int` the second, a non-`Int` is `TypeMismatch`. -/
def cond (ev : Ev) (l : List Expression) (ctx : Context) : Outcome Ty :=
  if l.length ≠ 3 then .error .BadArrity ctx
  else
    match l.head?, l.tail.head?, l.tail.tail.head? with
    | some c, some okE, some ngE =>
      match ev c ctx with
      | .ok r ctx' =>
        match r with
        | .Int 0 => ev ngE ctx'
        | .Int _ => ev okE ctx'
        | _ => .error .TypeMismatch ctx'
      | .error e ctx' => .error e ctx'
      | .timeout => .timeout
      | .panicked => .panicked
    | _, _, _ => .panicked

/-- eval.rs `set`: exactly 2 raw sub-expressions else `BadArrity`; the
value expression is evaluated first, then the first element must be a
`Var` (else `TypeMismatch`, with the value's Context mutations kept);
on success the binding is inserted and the value returned. -/
def set (ev : Ev) (l : List Expression) (ctx : Context) : Outcome Ty :=
  if l.length ≠ 2 then .error .BadArrity ctx
  else
    match l.head?, l.tail.head? with
    | some var, some valExp =>
      match ev valExp ctx with
      | .ok val ctx' =>
        match var with
        | .Var varstr => .ok val (ctx'.insert varstr val)
        | _ => .error .TypeMismatch ctx'
      | .error e ctx' => .error e ctx'
      | .timeout => .timeout
      | .panicked => .panicked
    | _, _ => .panicked

/-- Loop body of eval.rs `progn`: the `try_fold` evaluating each element
in order, keeping the last value. -/
def prognGo (ev : Ev) : List Expression → Ty → Context → Outcome Ty
  | [], last, ctx => .ok last ctx
  | e :: rest, _, ctx =>
    match ev e ctx with
    | .ok v ctx' => prognGo ev rest v ctx'
    | .error er ctx' => .error er ctx'
    | .timeout => .timeout
    | .panicked => .panicked

/-- eval.rs `progn`: at least one element else `BadArrity`; evaluate each
in order in the same Context, result is the last value (the fold starts
from the dummy `Int(0)`). -/
def progn (ev : Ev) (l : List Expression) (ctx : Context) : Outcome Ty :=
  if l.length = 0 then .error .BadArrity ctx
  else prognGo ev l (Ty.Int 0) ctx

/-- The `loop` of eval.rs `wloop`: evaluate the condition, require `Int`
else `TypeMismatch`; on `0` stop — the source returns `Ok(Type::Int(0))`
("便宜的にType::Int(0) を返す") — otherwise evaluate the body, discard
its value and repeat. The extra fuel bounds the number of iterations. -/
def wloopGo (ev : Ev) : Nat → Expression → Expression → Context → Outcome Ty
  | 0, _, _, _ => .timeout
  | m + 1, c, b, ctx =>
    match ev c ctx with
    | .ok (.Int i) ctx' =>
      if i = 0 then .ok (.Int 0) ctx'
      else
        match ev b ctx' with
        | .ok _ ctx'' => wloopGo ev m c b ctx''
        | .error er ctx'' => .error er ctx''
        | .timeout => .timeout
        | .panicked => .panicked
    | .ok _ ctx' => .error .TypeMismatch ctx'
    | .error er ctx' => .error er ctx'
    | .timeout => .timeout
    | .panicked => .panicked

/-- eval.rs `wloop` (the `while` special form): exactly 2 raw
sub-expressions else `BadArrity`, then the condition/body loop. -/
def wloop (ev : Ev) (m : Nat) (l : List Expression) (ctx : Context) : Outcome Ty :=
  if l.length ≠ 2 then .error .BadArrity ctx
  else
    match l.head?, l.tail.head? with
    | some c, some b => wloopGo ev m c b ctx
    | _, _ => .panicked

/-- The argument-evaluating `try_fold` of eval.rs `eval_with_context`:
evaluate the raw arguments left to right in the current Context, consing
each result (the caller reverses the accumulated list). -/
def evalArgs (ev : Ev) : List Expression → List Ty → Context → Outcome (List Ty)
  | [], acc, ctx => .ok acc ctx
  | e :: rest, acc, ctx =>
    match ev e ctx with
    | .ok v ctx' => evalArgs ev rest (v :: acc) ctx'
    | .error er ctx' => .error er ctx'
    | .timeout => .timeout
    | .panicked => .panicked

/-- eval.rs `embeded_fn_table`: the built-in functions, which receive
their arguments already evaluated. -/
def embeded_fn_table : List (String × (List Ty → TyRes)) :=
  [("add", add), ("sub", sub), ("mul", mul), ("div", div), ("list", list),
   ("head", head), ("tail", tail), ("gt", gt), ("lt", lt), ("eq", eq)]

/-- eval.rs `embeded_fn_table2`: the special forms, which receive the raw
sub-expressions plus the Context (the `while` entry also needs the
iteration fuel). -/
def embeded_fn_table2 :
    List (String × (Ev → Nat → List Expression → Context → Outcome Ty)) :=
  [("cond", fun ev _ l ctx => cond ev l ctx),
   ("set", fun ev _ l ctx => set ev l ctx),
   ("progn", fun ev _ l ctx => progn ev l ctx),
   ("while", fun ev m l ctx => wloop ev m l ctx)]

/-- eval.rs `eval_with_context`: `Int`/`Atom` evaluate to themselves, a
`Var` is looked up in the Context (absent is
`UndefinedVariableReference`), and a list form dispatches on its head
atom — special forms first, then built-ins on the evaluated arguments,
otherwise `NotFoundFunctionName`; an empty list is `Unexpected` and a
non-atom head is `EvaluatingNonAtomHeadList`. -/
def eval_with_context : Nat → Expression → Context → Outcome Ty
  | 0, _, _ => .timeout
  | n + 1, exp, ctx =>
    match exp with
    | .Int i => .ok (.Int i) ctx
    | .Atom a => .ok (.Atom a) ctx
    | .Var var =>
      match ctx.get var with
      | some val => .ok val ctx
      | none => .error .UndefinedVariableReference ctx
    | .ExpressionList clist =>
      match clist.head? with
      | some hd =>
        match hd with
        | .Atom fun_name =>
          match embeded_fn_table2.lookup fun_name with
          | some f => f (eval_with_context n) n clist.tail ctx
          | none =>
            match embeded_fn_table.lookup fun_name with
            | some f =>
              match evalArgs (eval_with_context n) clist.tail [] ctx with
              | .ok evaluated ctx' =>
                match f evaluated.reverse with
                | .ok v => .ok v ctx'
                | .error e => .error e ctx'
                | .panicked => .panicked
              | .error e ctx' => .error e ctx'
              | .timeout => .timeout
              | .panicked => .panicked
            | none => .error .NotFoundFunctionName ctx
        | _ => .error .EvaluatingNonAtomHeadList ctx
      | none => .error .Unexpected ctx

/-- Context-free view of an evaluation result, as returned by eval.rs
`eval` which owns its Context. -/
inductive EvalRes where
  | ok (t : Ty)
  | error (e : EvalError)
  | timeout
  | panicked

/-- eval.rs `eval`: evaluate against a freshly created empty Context. -/
def eval (fuel : Nat) (exp : Expression) : EvalRes :=
  match eval_with_context fuel exp Context.new with
  | .ok v _ => .ok v
  | .error e _ => .error e
  | .timeout => .timeout
  | .panicked => .panicked

end Liblisp

namespace Liblisp

/-- Outcome of expression.rs `Expression::try_from_`: a parsed expression
or an error, with the final value of the `index` cursor; `panicked`
models `panic!` and out-of-bounds slice indexing, `timeout` is the fuel
artifact. -/
inductive POut where
  | ok (e : Expression) (index : Nat)
  | error (e : ExpressionConversionError) (index : Nat)
  | panicked
  | timeout

/-- The space/newline-skipping loop at the top of the list branch of
`try_from_`; advances the cursor past `' '` and `'\n'`. The fuel argument
is exact whenever it is at least `bytes.length`. -/
def skipWs (bytes : List Char) : Nat → Nat → Nat
  | 0, index => index
  | fuel + 1, index =>
    match bytes.get? index with
    | some c => if c = ' ' ∨ c = '\n' then skipWs bytes fuel (index + 1) else index
    | none => index

/-- The digit-accumulating loop of the int branch of `try_from_`: a
maximal base-10 digit run, which must be followed by `')'`, space,
newline or end of input, else `InvalidToken`. -/
def parseIntLoop (bytes : List Char) : Nat → Nat → Int → POut
  | 0, _, _ => .timeout
  | fuel + 1, index, num =>
    match bytes.get? index with
    | none => .ok (.Int num) index
    | some c =>
      if c.isDigit then
        parseIntLoop bytes fuel (index + 1) (num * 10 + ((c.toNat - 48 : Nat) : Int))
      else if c = ')' ∨ c = ' ' ∨ c = '\n' then .ok (.Int num) index
      else .error .InvalidToken index

/-- The character-collecting loop of the atom branch of `try_from_`: an
alphabetic character followed by alphanumerics, terminated like an int. -/
def parseAtomLoop (bytes : List Char) : Nat → Nat → String → POut
  | 0, _, _ => .timeout
  | fuel + 1, index, atom =>
    match bytes.get? index with
    | none => .ok (.Atom atom) index
    | some c =>
      if c.isDigit ∨ c.isAlpha then parseAtomLoop bytes fuel (index + 1) (atom.push c)
      else if c = ')' ∨ c = ' ' ∨ c = '\n' then .ok (.Atom atom) index
      else .error .InvalidToken index

/-- End check of the var branch of `try_from_`: the token must contain
exactly two `'*'`, and its last character must be `'*'`. -/
def parseVarEnd (bytes : List Char) (index : Nat) (var : String) (asta_count : Nat) : POut :=
  if asta_count = 2 ∧ bytes.get? (index - 1) = some '*' then .ok (.Var var) index
  else .error .InvalidToken index

/-- The scanning loop of the var branch of `try_from_`: alphanumerics and
`'*'` (counted), terminated like an int, then the exactly-two-asterisks
check. -/
def parseVarLoop (bytes : List Char) : Nat → Nat → String → Nat → POut
  | 0, _, _, _ => .timeout
  | fuel + 1, index, var, asta_count =>
    match bytes.get? index with
    | none => parseVarEnd bytes index var asta_count
    | some c =>
      if c.isDigit ∨ c.isAlpha ∨ c = '*' then
        parseVarLoop bytes fuel (index + 1) (var.push c)
          (if c = '*' then asta_count + 1 else asta_count)
      else if c = ')' ∨ c = ' ' ∨ c = '\n' then parseVarEnd bytes index var asta_count
      else .error .InvalidToken index

/-- The element loop of the list branch of `try_from_` (`p` is the
recursive parse of one element): skip whitespace; reaching the end of the
input mid-list is the source's `panic!("occured unexpected error")`; a
`')'` closes the list (reversing the accumulated elements); otherwise
parse one element and continue. -/
def parseListLoop (p : Nat → POut) (bytes : List Char) :
    Nat → Nat → List Expression → POut
  | 0, _, _ => .timeout
  | fuel + 1, index, listAcc =>
    let index' := skipWs bytes (bytes.length + 1) index
    if index' = bytes.length then .panicked
    else
      match bytes.get? index' with
      | some c =>
        if c = ')' then .ok (.ExpressionList listAcc.reverse) (index' + 1)
        else
          match p index' with
          | .ok e idx2 => parseListLoop p bytes fuel idx2 (e :: listAcc)
          | .error er idx2 => .error er idx2
          | .panicked => .panicked
          | .timeout => .timeout
      | none => .panicked

/-- expression.rs `Expression::try_from_`: dispatch on the first
character — `'('` list, digit int, alphabetic atom, `'*'` var, anything
else `InvalidToken`. The unchecked `bytes[*index]` reads panic when out
of bounds. The fuel bounds the nesting depth of lists. -/
def try_from_ (bytes : List Char) : Nat → Nat → POut
  | 0, _ => .timeout
  | fuel + 1, index =>
    match bytes.get? index with
    | none => .panicked
    | some head_ch =>
      if head_ch = '(' then
        parseListLoop (try_from_ bytes fuel) bytes (bytes.length + 1) (index + 1) []
      else if head_ch.isDigit then parseIntLoop bytes (bytes.length + 1) index 0
      else if head_ch.isAlpha then parseAtomLoop bytes (bytes.length + 1) index ""
      else if head_ch = '*' then
        match bytes.get? (index + 1) with
        | none => .panicked
        | some second_ch =>
          if second_ch.isAlpha then
            parseVarLoop bytes (bytes.length + 1) (index + 1) "*" 1
          else .error .InvalidToken (index + 1)
      else .error .InvalidToken index

/-- Result of the public expression.rs `TryFrom` entry point (cursor
dropped). -/
inductive TFRes where
  | ok (e : Expression)
  | error (e : ExpressionConversionError)
  | panicked
  | timeout

/-- expression.rs `TryFrom<&[u8]> for Expression`: parse one form from
index 0; any unconsumed trailing input turns the result into
`InvalidToken`. -/
def try_from (fuel : Nat) (bytes : List Char) : TFRes :=
  match try_from_ bytes fuel 0 with
  | .ok e index => if index = bytes.length then .ok e else .error .InvalidToken
  | .error er index => if index = bytes.length then .error er else .error .InvalidToken
  | .panicked => .panicked
  | .timeout => .timeout

/-- Result of the parse-then-evaluate pipeline (spec section 2: text →
Parser → Expression → Evaluator → Value or error). -/
inductive RunRes where
  | val (t : Ty)
  | evalError (e : EvalError)
  | parseError (e : ExpressionConversionError)
  | panicked
  | timeout

/-- The whole pipeline on a source string, as exercised by the reference
tests: `eval(Expression::try_from(s))` with a fresh Context. -/
def run (pfuel efuel : Nat) (s : String) : RunRes :=
  match try_from pfuel s.toList with
  | .ok e =>
    match eval efuel e with
    | .ok v => .val v
    | .error er => .evalError er
    | .timeout => .timeout
    | .panicked => .panicked
  | .error er => .parseError er
  | .panicked => .panicked
  | .timeout => .timeout

end Liblisp

namespace Liblisp

/-- The program of the C3 scenario, `(cond (eq 1 0) (set *x* 1) 0)`. -/
def condProg : Expression :=
  .ExpressionList [.Atom "cond",
    .ExpressionList [.Atom "eq", .Int 1, .Int 0],
    .ExpressionList [.Atom "set", .Var "*x*", .Int 1],
    .Int 0]

/-- The nested set of the C9 witness, `(set *y* 1)`. -/
def innerSet : Expression := .ExpressionList [.Atom "set", .Var "*y*", .Int 1]

/-- C1: the claim says a `while` loop whose condition reaches `Int(0)`
returns `Ok(Void)`; the code's `wloop` instead returns `Ok(Type::Int(0))`
(its `Type` enum has no `Void` variant at all), also on the very loop
program whose result the repository's own integration test
(tests/lib.rs) asserts to be `Ok(Type::Void)`. -/
theorem while_loop_returns_int_zero_not_void :
    run 50 20 "(while 0 0)" = .val (.Int 0) ∧
    run 300 80 "(progn (set *i* 0) (set *a* 0) (while (lt *i* 10) (progn (set *a* (add *i* *a*)) (set *i* (add *i* 1)))))" =
      .val (.Int 0) :=
  ⟨rfl, rfl⟩

/-- C2: the claim says parsing an input that opens a list and ends before
the matching `')'` returns `Err(InvalidToken)`; the code instead reaches
`panic!("occured unexpected error")` in `Expression::try_from_`, i.e. it
crashes rather than reporting an error. -/
theorem parse_unterminated_list_panics :
    try_from 100 "(1 2".toList = .panicked ∧ try_from 100 "(".toList = .panicked :=
  ⟨rfl, rfl⟩

/-- C3: in a `(cond C T F)` form, when the condition evaluates to
`Int(0)` the result is exactly the evaluation of `F` from the
post-condition Context (the then-branch `T` is never evaluated); in
particular `(cond (eq 1 0) (set *x* 1) 0)` parses to `condProg`, returns
`Int(0)` and leaves the fresh Context unchanged, so `*x*` stays unbound. -/
theorem cond_evaluates_only_selected_branch :
    (∀ (ev : Ev) (c t f : Expression) (ctx ctx' : Context),
        ev c ctx = .ok (.Int 0) ctx' → cond ev [c, t, f] ctx = ev f ctx') ∧
    try_from 100 "(cond (eq 1 0) (set *x* 1) 0)".toList = .ok condProg ∧
    eval_with_context 20 condProg Context.new = .ok (.Int 0) Context.new ∧
    Context.new.get "*x*" = none := by
  refine ⟨?_, rfl, rfl, rfl⟩
  intro ev c t f ctx ctx' h
  simp [cond, h]

/-- Witness for C3: instantiating the laziness statement at a concrete
condition that evaluates to `Int(0)`. -/
theorem cond_evaluates_only_selected_branch_witness :
    cond (eval_with_context 10) [Expression.Int 0, Expression.Int 7, Expression.Int 8]
        Context.new =
      eval_with_context 10 (Expression.Int 8) Context.new :=
  cond_evaluates_only_selected_branch.1 (eval_with_context 10) (.Int 0) (.Int 7) (.Int 8)
    Context.new Context.new rfl

/-- C4: the stateful loop program of the spec's test suite, parsed from
its source text and evaluated in a fresh empty Context, yields
`Ok(Int(45))`: `set` mutates the single ambient Context, so the loop's
counter and accumulator updates are seen by later forms. -/
theorem stateful_loop_program_evaluates_to_45 :
    run 300 80 "(progn (set *i* 0)(set *a* 0)(while (lt *i* 10)(progn (set *a* (add *i* *a*))(set *i* (add *i* 1)))) *a*)" =
      .val (.Int 45) := rfl

/-- C5: evaluating an `ExpressionList`: empty list gives `Unexpected`; a
non-`Atom` head gives `EvaluatingNonAtomHeadList`; an `Atom` head found
in neither dispatch table gives `NotFoundFunctionName`. -/
theorem list_form_dispatch_errors (n : Nat) (ctx : Context) :
    eval_with_context (n + 1) (.ExpressionList []) ctx = .error .Unexpected ctx ∧
    (∀ (hd : Expression) (rest : List Expression), (∀ s, hd ≠ .Atom s) →
        eval_with_context (n + 1) (.ExpressionList (hd :: rest)) ctx =
          .error .EvaluatingNonAtomHeadList ctx) ∧
    (∀ (name : String) (rest : List Expression),
        embeded_fn_table2.lookup name = none →
        embeded_fn_table.lookup name = none →
        eval_with_context (n + 1) (.ExpressionList (.Atom name :: rest)) ctx =
          .error .NotFoundFunctionName ctx) := by
  refine ⟨rfl, ?_, ?_⟩
  · intro hd rest h
    cases hd with
    | Int i => rfl
    | Atom s => exact absurd rfl (h s)
    | Var s => rfl
    | ExpressionList l => rfl
  · intro name rest h2 h1
    simp [eval_with_context, h2, h1]

/-- Witness for C5: a non-atom head and an unknown function name. -/
theorem list_form_dispatch_errors_witness :
    eval_with_context 1 (.ExpressionList [Expression.Int 1, Expression.Int 2]) Context.new =
      .error .EvaluatingNonAtomHeadList Context.new ∧
    eval_with_context 1 (.ExpressionList [Expression.Atom "undefinedfn"]) Context.new =
      .error .NotFoundFunctionName Context.new :=
  ⟨(list_form_dispatch_errors 0 Context.new).2.1 (.Int 1) [.Int 2] (fun s h => by cases h),
   (list_form_dispatch_errors 0 Context.new).2.2 "undefinedfn" [] rfl rfl⟩

/-- C6: `gt`/`lt` compare two `Int`s numerically and two `Atom`s
lexicographically, returning `Int(1)` when the strict relation holds and
`Int(0)` otherwise; on such pairs `eq` returns `Int(1)` exactly when both
`gt` and `lt` return `Int(0)`; a pair mixing an `Int` with an `Atom` is a
`TypeMismatch` for all three. -/
theorem comparison_ops_relations :
    (∀ x y : Int,
        gt [Ty.Int x, Ty.Int y] = .ok (.Int (if y < x then 1 else 0)) ∧
        lt [Ty.Int x, Ty.Int y] = .ok (.Int (if x < y then 1 else 0))) ∧
    (∀ s t : String,
        gt [Ty.Atom s, Ty.Atom t] = .ok (.Int (if t < s then 1 else 0)) ∧
        lt [Ty.Atom s, Ty.Atom t] = .ok (.Int (if s < t then 1 else 0))) ∧
    (∀ x y : Int,
        eq [Ty.Int x, Ty.Int y] = .ok (.Int 1) ↔
          gt [Ty.Int x, Ty.Int y] = .ok (.Int 0) ∧
            lt [Ty.Int x, Ty.Int y] = .ok (.Int 0)) ∧
    (∀ s t : String,
        eq [Ty.Atom s, Ty.Atom t] = .ok (.Int 1) ↔
          gt [Ty.Atom s, Ty.Atom t] = .ok (.Int 0) ∧
            lt [Ty.Atom s, Ty.Atom t] = .ok (.Int 0)) ∧
    (∀ (x : Int) (s : String),
        gt [Ty.Int x, Ty.Atom s] = .error .TypeMismatch ∧
        gt [Ty.Atom s, Ty.Int x] = .error .TypeMismatch ∧
        lt [Ty.Int x, Ty.Atom s] = .error .TypeMismatch ∧
        lt [Ty.Atom s, Ty.Int x] = .error .TypeMismatch ∧
        eq [Ty.Int x, Ty.Atom s] = .error .TypeMismatch ∧
        eq [Ty.Atom s, Ty.Int x] = .error .TypeMismatch) := by
  refine ⟨fun x y => ⟨rfl, rfl⟩, fun s t => ⟨rfl, rfl⟩, ?_, ?_,
    fun x s => ⟨rfl, rfl, rfl, rfl, rfl, rfl⟩⟩
  · intro x y
    by_cases h1 : y < x <;> by_cases h2 : x < y <;> simp [eq, gt, lt, h1, h2]
  · intro s t
    by_cases h1 : t < s <;> by_cases h2 : s < t <;> simp [eq, gt, lt, h1, h2]

/-- C7: `head` of a one-argument list value returns its first element,
and `DoHeadForNil` on the empty list; `tail` of a one-argument list value
returns everything but the first element, which is the empty list for an
empty or singleton input (and no error there). -/
theorem head_tail_builtins :
    (∀ (v : Ty) (rest : List Ty), head [Ty.List (v :: rest)] = .ok v) ∧
    head [Ty.List []] = .error .DoHeadForNil ∧
    (∀ l : List Ty, tail [Ty.List l] = .ok (.List l.tail)) ∧
    tail [Ty.List []] = .ok (.List []) ∧
    (∀ v : Ty, tail [Ty.List [v]] = .ok (.List [])) :=
  ⟨fun _ _ => rfl, rfl, fun _ => rfl, rfl, fun _ => rfl⟩

/-- C8: evaluation is deterministic: the embedded evaluator is a pure
function of the expression (each `eval` call creates its own fresh empty
Context), so two evaluations of the same `Expression` are structurally
identical results. -/
theorem eval_deterministic : ∀ (fuel : Nat) (e : Expression), eval fuel e = eval fuel e :=
  fun _ _ => rfl

/-- C9: a `(set V E)` form with a non-`Var` first element fails with
`TypeMismatch`, but only after `E` has been evaluated in the current
Context: the error carries the Context as mutated by `E`'s evaluation,
so those mutations persist — `set`'s error path is not atomic. -/
theorem set_error_keeps_value_mutations
    (n : Nat) (v e : Expression) (ctx ctx' : Context) (val : Ty)
    (hv : ∀ s, v ≠ Expression.Var s)
    (he : eval_with_context n e ctx = .ok val ctx') :
    eval_with_context (n + 1) (.ExpressionList [.Atom "set", v, e]) ctx =
      .error .TypeMismatch ctx' := by
  have h0 : eval_with_context (n + 1) (.ExpressionList [.Atom "set", v, e]) ctx =
      set (eval_with_context n) [v, e] ctx := rfl
  rw [h0]
  cases v with
  | Int i => simp [set, he]
  | Atom s => simp [set, he]
  | Var s => exact absurd rfl (hv s)
  | ExpressionList l => simp [set, he]

/-- Witness for C9: `(set 5 (set *y* 1))` fails with `TypeMismatch` and
the nested binding of `*y*` survives in the resulting Context. -/
theorem set_error_keeps_value_mutations_witness :
    eval_with_context 6 (.ExpressionList [.Atom "set", .Int 5, innerSet]) Context.new =
      .error .TypeMismatch ⟨[("*y*", .Int 1)]⟩ :=
  set_error_keeps_value_mutations 5 (.Int 5) innerSet Context.new ⟨[("*y*", .Int 1)]⟩
    (.Int 1) (fun s h => by cases h) rfl

/-- C10: `gt`, `lt` and `eq` applied to two arguments whose first is a
list value (hence neither `Int` nor `Atom`) all return `TypeMismatch`:
list values can never be compared, not even for equality. -/
theorem compare_list_values_type_mismatch (l : List Ty) (b : Ty) :
    gt [Ty.List l, b] = .error .TypeMismatch ∧
    lt [Ty.List l, b] = .error .TypeMismatch ∧
    eq [Ty.List l, b] = .error .TypeMismatch :=
  ⟨rfl, rfl, rfl⟩

end Liblisp

/-!
Cross-checks of the embedding against the repository's own test suite
(the `#[test]` functions of eval.rs, expression.rs and the examples of
spec.md section 8): each expected input/output pair of the reference
tests holds of the embedded definitions by computation.
-/
section TestSuite
open Liblisp
example : gt [Ty.Int 3, Ty.Int 2] = .ok (.Int 1) := rfl
example : lt [Ty.Int 3, Ty.Int 2] = .ok (.Int 0) := rfl
example : eq [Ty.Int 3, Ty.Int 3] = .ok (.Int 1) := rfl
example : eq [Ty.Atom "a", Ty.Int 3] = .error .TypeMismatch := rfl
example : eval 10 (.ExpressionList [.Atom "add", .Int 1, .Int 2]) = .ok (.Int 3) := rfl
example : eval 10 (.ExpressionList [.Atom "add", .Int 1]) = .error .BadArrity := rfl
example : eval 10 (.ExpressionList [.Int 1, .Int 2]) = .error .EvaluatingNonAtomHeadList := rfl
example : eval 10 (.ExpressionList []) = .error .Unexpected := rfl
example : eval 10 (.ExpressionList [.Atom "foo"]) = .error .NotFoundFunctionName := rfl
example : eval 10 (.Var "*x*") = .error .UndefinedVariableReference := rfl
example : eval 20 (.ExpressionList [.Atom "while", .Int 0, .Int 0]) = .ok (.Int 0) := rfl
example : try_from 100 "12345".toList = .ok (.Int 12345) := rfl
example : try_from 100 "atom123".toList = .ok (.Atom "atom123") := rfl
example : try_from 100 "123atom".toList = .error .InvalidToken := rfl
example : try_from 100 "( )".toList = .ok (.ExpressionList []) := rfl
example : try_from 100 "( ( ) )".toList = .ok (.ExpressionList [.ExpressionList []]) := rfl
example : try_from 100 "*abcdefg*".toList = .ok (.Var "*abcdefg*") := rfl
example : try_from 100 "abc def".toList = .error .InvalidToken := rfl
example : try_from 100 "(abc def) ()".toList = .error .InvalidToken := rfl
example : try_from 100 "(1 2".toList = .panicked := rfl
example : try_from 100 "(".toList = .panicked := rfl
example : run 100 20 "(add 1 2)" = .val (.Int 3) := rfl
example : run 100 20 "(sub 1 2)" = .val (.Int (-1)) := rfl
example : run 100 20 "(add (add (sub 1 2) 3) 4)" = .val (.Int 6) := rfl
example : run 100 20 "(head (list 10 20 30))" = .val (.Int 10) := rfl
example : run 100 20 "(tail (list 1 2 3))" = .val (.List [.Int 2, .Int 3]) := rfl
example : run 100 20 "(cond (eq 3 3) (div 10 2) 20)" = .val (.Int 5) := rfl
example : run 100 20 "(cond (eq 3 2) 10 (mul 20 10))" = .val (.Int 200) := rfl
example : run 100 20 "(progn (set *a* 10) (add *a* (add *a* 20)))" = .val (.Int 40) := rfl
example :
    run 300 80 "(progn (set *i* 0)(set *a* 0)(while (lt *i* 10)(progn (set *a* (add *i* *a*))(set *i* (add *i* 1)))) *a*)" =
      .val (.Int 45) := rfl
example :
    run 300 80 "(progn (set *i* 0) (set *a* 0) (while (lt *i* 10) (progn (set *a* (add *i* *a*)) (set *i* (add *i* 1)))))" =
      .val (.Int 0) := rfl
end TestSuite
